import Mathlib

/-!
Shallow embedding of the core of `iss_tracker.py` (the later of the two
duplicated module copies, lines 290-616): the timestamp codec used by the
`/now` handler, the Redis-backed state-vector store and its reconcile loop,
and the Flask route handlers `read_iss_data` (`/epochs`), `epoch_data`
(`/epochs/<epoch>`), `now_epoch_speed` (`/now`), `epoch_speed`
(`/epochs/<epoch>/speed`) and `epoch_location` (`/epochs/<epoch>/location`).

Machine reals (Python floats) are modelled by ℚ for parsed field values and
by ℝ for the one irrational computation (`math.sqrt` in `compute_speed`).
Python exceptions are modelled by `Except PyErr`; a `.error` result is an
exception escaping the handler (an unhandled fault at the transport layer),
while `.ok` is a value actually returned by the handler.
-/

/-- Value of a list of decimal digit characters. -/
def digitsToNat (cs : List Char) : Nat :=
  cs.foldl (fun a c => 10 * a + (c.toNat - 48)) 0

/-- Read a maximal run of digits; succeed when its length lies in
[minLen, maxLen] and its value in [lo, hi].  This models the bounded
numeric directives of CPython `time.strptime` (`%Y`, `%j`, `%H`, `%M`,
`%S`, `%f`) on the zero-padded timestamps this feed uses. -/
def readNum (minLen maxLen lo hi : Nat) (cs : List Char) : Option (Nat × List Char) :=
  let ds := cs.takeWhile Char.isDigit
  let rest := cs.dropWhile Char.isDigit
  if minLen ≤ ds.length ∧ ds.length ≤ maxLen ∧ lo ≤ digitsToNat ds ∧ digitsToNat ds ≤ hi then
    some (digitsToNat ds, rest)
  else none

/-- Consume one expected literal character of the format string. -/
def expectChar (c : Char) : List Char → Option (List Char)
  | [] => none
  | d :: rest => if d = c then some rest else none

/-- The fields of a `time.struct_time` that the program ever uses:
year, day-of-year, hour, minute, second (fractions are parsed by `%f`
but dropped by `struct_time`/`mktime`). -/
structure TmStruct where
  year : Nat
  yday : Nat
  hour : Nat
  minute : Nat
  sec : Nat
deriving DecidableEq, Repr

/-- Parse the common stem `%Y-%jT%H:%M:%S` of both formats used by the
program: 4-digit year, day-of-year in [1, 366], hour ≤ 23, minute ≤ 59,
second ≤ 61 (strptime accepts leap seconds). -/
def parseTm (cs : List Char) : Option (TmStruct × List Char) := do
  let (y, r1) ← readNum 4 4 0 9999 cs
  let r2 ← expectChar '-' r1
  let (j, r3) ← readNum 1 3 1 366 r2
  let r4 ← expectChar 'T' r3
  let (h, r5) ← readNum 1 2 0 23 r4
  let r6 ← expectChar ':' r5
  let (mi, r7) ← readNum 1 2 0 59 r6
  let r8 ← expectChar ':' r7
  let (s, r9) ← readNum 1 2 0 61 r8
  some (⟨y, j, h, mi, s⟩, r9)

/-- `time.strptime(key, "%Y-%jT%H:%M:%S.%fZ")`: the epoch-key format of
`now_epoch_speed` (line 426).  The fractional part must be 1-6 digits and
is discarded; the whole string must be consumed. -/
def strptimeFullFormat (str : String) : Option TmStruct := do
  let (tm, r) ← parseTm str.data
  let r1 ← expectChar '.' r
  let (_, r2) ← readNum 1 6 0 999999 r1
  let r3 ← expectChar 'Z' r2
  if r3 = [] then some tm else none

/-- `time.strptime(s, "%Y-%jT%H:%M:%S")`: the truncated format used by
`compute_location_astropy` (line 528) on `sv['EPOCH'][:-5]`. -/
def strptimeNoFrac (str : String) : Option TmStruct := do
  let (tm, r) ← parseTm str.data
  if r = [] then some tm else none

/-- Gregorian leap-year rule. -/
def isLeapYear (y : Nat) : Bool :=
  (y % 4 == 0 && y % 100 != 0) || (y % 400 == 0)

def daysInYear (y : Nat) : Nat := if isLeapYear y then 366 else 365

/-- Days from 1970-01-01 to the start of year `y` (for years ≥ 1970,
which covers every timestamp this feed can produce). -/
def daysFrom1970 (y : Nat) : Nat :=
  ((List.range (y - 1970)).map (fun i => daysInYear (1970 + i))).foldl Nat.add 0

/-- `time.mktime` applied to the parsed struct, on a host whose timezone
is UTC without DST (both the current time and every key go through the
same conversion, so a constant zone offset cancels in all comparisons). -/
def mktimeUTC (tm : TmStruct) : Int :=
  ((daysFrom1970 tm.year + (tm.yday - 1)) * 86400
    + tm.hour * 3600 + tm.minute * 60 + tm.sec : Nat)

/-- Seconds since the Unix epoch of one stored key, as computed in the
`/now` scan (line 439): `time.mktime(time.strptime(key, fmt))`.
`none` models the ValueError that `strptime` raises on a malformed key. -/
def parseEpochSeconds (s : String) : Option Int :=
  (strptimeFullFormat s).map mktimeUTC

/-- Python `int(str)` on a plain optionally-signed decimal numeral
(whitespace and underscore forms never occur in this program's inputs). -/
def pyInt (str : String) : Option Int :=
  let core : List Char → Option Int := fun cs =>
    if cs ≠ [] ∧ cs.all Char.isDigit then some (digitsToNat cs) else none
  match str.data with
  | '-' :: rest => (core rest).map (fun n => -n)
  | '+' :: rest => core rest
  | cs => core cs

/-- Python `float(str)` on a plain optionally-signed decimal literal with
an optional fractional part (the `#text` fields of this feed are all of
that shape); exponents, inf and nan never occur here. -/
def pyFloat (str : String) : Option ℚ :=
  let core : List Char → Option ℚ := fun cs =>
    let ip := cs.takeWhile Char.isDigit
    let r := cs.dropWhile Char.isDigit
    match r with
    | [] => if ip = [] then none else some (digitsToNat ip)
    | '.' :: fr =>
      let fp := fr.takeWhile Char.isDigit
      let r2 := fr.dropWhile Char.isDigit
      if r2 = [] ∧ (ip ≠ [] ∨ fp ≠ []) then
        some ((digitsToNat ip : ℚ) + (digitsToNat fp : ℚ) / ((10 : ℚ) ^ fp.length))
      else none
    | _ => none
  match str.data with
  | '-' :: rest => (core rest).map (fun q => -q)
  | '+' :: rest => core rest
  | cs => core cs

/-- Effective index of a Python slice bound `i` on a sequence of length
`len`: negative bounds count from the end and both ends are clamped. -/
def pyIndex (len : Nat) (i : Int) : Nat :=
  if i < 0 then ((len : Int) + i).toNat else min i.toNat len

/-- Python `xs[lo:hi]`. -/
def pySlice {α : Type} (xs : List α) (lo hi : Int) : List α :=
  (xs.take (pyIndex xs.length hi)).drop (pyIndex xs.length lo)

/-- Python `s[:-5]` (all but the final 5 characters). -/
def truncLast5 (s : String) : String :=
  ⟨s.data.take (s.data.length - 5)⟩

/-- One state-vector sample as stored in Redis: the `EPOCH` key string
plus the `#text` payload of each position/velocity field.  A field is
`none` when the feed omitted it (the feed is occasionally incomplete);
the constant `@units` attributes carry no information and are elided. -/
structure StateVector where
  epoch : String
  x : Option String
  y : Option String
  z : Option String
  xDot : Option String
  yDot : Option String
  zDot : Option String
deriving DecidableEq, Repr

/-- Association-list lookup, first match wins: the value `rd.get(key)`
returns for a key of the sample keyspace. -/
def lookupSV : List (String × StateVector) → String → Option StateVector
  | [], _ => none
  | (e, v) :: d, k => if e = k then some v else lookupSV d k

/-- The Redis database as the program uses it: the sample keyspace
(`rd.set`/`rd.get`/`rd.exists` on epoch keys) plus the reserved ordered
key list `iss_keys` (`rd.rpush`/`rd.lrange`), kept as a separate field.
Writes shadow earlier entries, so `rd.set` is a front insertion. -/
structure Store where
  data : List (String × StateVector)
  index : List String
deriving DecidableEq, Repr

def Store.get (s : Store) (k : String) : Option StateVector :=
  lookupSV s.data k

def emptyStore : Store := ⟨[], []⟩

/-- The body of the reconcile loop of `read_iss_data` (lines 350-369) for
one feed sample: if `not rd.exists(epoch)` then `rd.set` the sample and
`rd.rpush` the key onto `iss_keys`; otherwise compare the stored sample
with the fetched one and overwrite only when they differ. -/
def upsertIfChanged (s : Store) (sv : StateVector) : Store :=
  match lookupSV s.data sv.epoch with
  | none => ⟨(sv.epoch, sv) :: s.data, s.index ++ [sv.epoch]⟩
  | some stored =>
    if stored = sv then s else ⟨(sv.epoch, sv) :: s.data, s.index⟩

/-- The whole reconcile loop of `read_iss_data`: fold the loop body over
the fetched feed in feed order. -/
def reconcile (s : Store) (feed : List StateVector) : Store :=
  feed.foldl upsertIfChanged s

/-- The 1:1 correspondence the spec demands of a well-formed store: the
key list has no duplicates and every listed key has a stored sample. -/
def StoreInv (s : Store) : Prop :=
  s.index.Nodup ∧ ∀ k ∈ s.index, (s.get k).isSome

/-- `[json.loads(rd.get(k)) for k in rd.lrange('iss_keys', 0, -1)]`
(lines 384-385); under `StoreInv` every lookup succeeds. -/
def storedSamples (s : Store) : List StateVector :=
  s.index.filterMap (fun k => s.get k)

/-- The error cases of the fetch-and-parse prologue of `read_iss_data`
(lines 330-347): a `requests.RequestException` or an XML
`KeyError`/`ExpatError`, each caught and turned into its own payload. -/
inductive FetchResult where
  | ok (svs : List StateVector)
  | requestExc
  | xmlParseExc
deriving DecidableEq, Repr

/-- The query parameters of an `/epochs` request, as raw strings
(`request.args.get` yields `None` when the parameter is absent). -/
structure Params where
  limit : Option String
  offset : Option String
deriving DecidableEq, Repr

/-- A value a handler actually returns to Flask: an `{error: msg}` dict,
one sample, a list of samples, the `/now`-and-speed payload, or the
location payload. -/
inductive Resp where
  | errorPayload (msg : String)
  | sample (sv : StateVector)
  | sampleList (svs : List StateVector)
  | speedPayload (epoch : String) (speed : ℝ)
  | locationPayload (lat lon alt : ℚ) (geoloc : String)

/-- A Python exception escaping a handler (no surrounding try/except). -/
inductive PyErr where
  | valueError
  | typeError
  | nameError (missing : String)
deriving DecidableEq, Repr

/-- `int(request.args.get('limit', len(state_vectors)))` (lines 372-373):
the default is the length of the freshly fetched feed, not of the store. -/
def limitRaw (ps : Params) (svs : List StateVector) : Option Int :=
  match ps.limit with
  | none => some (svs.length : Int)
  | some str => pyInt str

/-- `int(request.args.get('offset', 0))` (lines 377-378). -/
def offsetRaw (ps : Params) : Option Int :=
  match ps.offset with
  | none => some 0
  | some str => pyInt str

/-- The `/epochs` handler `read_iss_data` (lines 316-388): fetch errors
short-circuit; otherwise the feed is reconciled into the store, THEN the
`limit`/`offset` parameters are validated (limit first), the offset is
range-checked against the feed length, and finally the stored samples are
re-read in index order and sliced. -/
def readIssData (fetched : FetchResult) (ps : Params) (s : Store) : Store × Resp :=
  match fetched with
  | .requestExc => (s, .errorPayload "failed to fetch iss data")
  | .xmlParseExc => (s, .errorPayload "error parsing XML data")
  | .ok svs =>
    if svs.isEmpty then (s, .errorPayload "No ISSS StateVectors found")
    else
      let s2 := reconcile s svs
      match limitRaw ps svs with
      | none => (s2, .errorPayload "limit parameter must be an integer")
      | some limit =>
        match offsetRaw ps with
        | none => (s2, .errorPayload "offset parameter must be an integer")
        | some off =>
          if (svs.length : Int) ≤ off then
            (s2, .errorPayload "offset param. out of range.")
          else
            (s2, .sampleList (pySlice (storedSamples s2) off (off + limit)))

/-- The `/epochs/<epoch>` handler `epoch_data` (lines 391-407). -/
def epochData (s : Store) (epoch : String) : Resp :=
  match s.get epoch with
  | none => .errorPayload "No matching EPOCH"
  | some sv => .sample sv

/-- `compute_speed` (lines 452-464): `math.sqrt(vx**2 + vy**2 + vz**2)`,
over ideal reals. -/
noncomputable def compute_speed (xv yv zv : ℝ) : ℝ :=
  Real.sqrt (xv ^ 2 + yv ^ 2 + zv ^ 2)

/-- The `/epochs/<epoch>/speed` handler `epoch_speed` (lines 467-501):
an error dict from `epoch_data` is returned as-is; a missing velocity
field is the caught KeyError branch; `float()` on a non-numeric string
raises OUTSIDE the try block, an unhandled ValueError. -/
noncomputable def epochSpeed (s : Store) (epoch : String) : Except PyErr Resp :=
  match epochData s epoch with
  | .sample sv =>
    match sv.xDot, sv.yDot, sv.zDot with
    | some xs, some ys, some zs =>
      match pyFloat xs, pyFloat ys, pyFloat zs with
      | some xq, some yq, some zq =>
        .ok (.speedPayload epoch (compute_speed (xq : ℝ) (yq : ℝ) (zq : ℝ)))
      | _, _, _ => .error .valueError
    | _, _, _ => .ok (.errorPayload "Failed to extract velocity components, KeyError.")
  | r => .ok r

/-- The key-selection loop of `now_epoch_speed` (lines 437-446).  State:
`best` is `closest_epoch_key` (initially `None`) and `minDiff` is
`min_time_diff` (initially `float('inf')`, modelled as `none`).  Note the
source stores the SIGNED difference `latest_time_diff` into
`min_time_diff`, not its absolute value.  A key `strptime` cannot parse
raises an unhandled ValueError, aborting the whole scan. -/
def closestScan (now : Int) :
    List String → Option String → Option Int → Except PyErr (Option String)
  | [], best, _ => .ok best
  | k :: rest, best, minDiff =>
    match parseEpochSeconds k with
    | none => .error .valueError
    | some t =>
      let d := now - t
      if (match minDiff with
          | none => true
          | some m => decide ((d.natAbs : Int) < m)) then
        closestScan now rest (some k) (some d)
      else
        closestScan now rest best minDiff

/-- The `/now` handler `now_epoch_speed` (lines 410-450): empty key list
short-circuits to an error payload; otherwise the scan selects a key and
`epoch_speed` is called on it.  The `.ok none` branch is unreachable for
a non-empty key list (the first key always beats the infinite initial
minimum); in the source `epoch_speed(None)` would raise in the Redis
client, modelled as a TypeError. -/
noncomputable def nowEpochSpeed (now : Int) (s : Store) : Except PyErr Resp :=
  if s.index = [] then .ok (.errorPayload "Database is empty.")
  else
    match closestScan now s.index none none with
    | .error e => .error e
    | .ok none => .error .typeError
    | .ok (some k) => epochSpeed s k

/-- The names bound by the module's Flask import statement (line 302):
`from flask import Flask, request`. -/
def flaskImports : List String := ["Flask", "request"]

/-- `compute_location_astropy` (lines 504-539).  Coordinate extraction
(`float(sv['X']['#text'])` etc.) and the truncated-epoch `strptime` are
each wrapped in try/except returning `(None, None, None)`; the GCRS→ITRS
transform itself is the excluded astropy collaborator, passed in as a
total function of the coordinates and the parsed obstime. -/
def computeLocationAstropy (transform : ℚ → ℚ → ℚ → TmStruct → ℚ × ℚ × ℚ)
    (stateVec : Resp) : Option (ℚ × ℚ × ℚ) :=
  match stateVec with
  | .sample sv =>
    match sv.x, sv.y, sv.z with
    | some xs, some ys, some zs =>
      match pyFloat xs, pyFloat ys, pyFloat zs with
      | some xq, some yq, some zq =>
        match strptimeNoFrac (truncLast5 sv.epoch) with
        | none => none
        | some tm => some (transform xq yq zq tm)
      | _, _, _ => none
    | _, _, _ => none
  | _ => none

/-- The zoom levels `compute_nearest_geolocation` (lines 542-576) tries,
in call order: the initial call at 15, the zoom-in loop calling at 16-19,
then the zoom-out loop calling at 14 down to 9; the first non-None
geocoder answer wins. -/
def geoZoomOrder : List Int := [15, 16, 17, 18, 19, 14, 13, 12, 11, 10, 9]

/-- `compute_nearest_geolocation` (lines 542-576), with the excluded
Nominatim collaborator passed in as `geocode lat lon zoom`, returning the
display name of the reverse-geocoded place when one exists. -/
def computeNearestGeolocation (geocode : ℚ → ℚ → Int → Option String)
    (lat lon : ℚ) : String :=
  match geoZoomOrder.findSome? (fun z => geocode lat lon z) with
  | some name => name
  | none => "No Nearest Geolocation Found. ISS might be hovering over an ocean."

/-- The `/epochs/<epoch>/location` handler `epoch_location` (lines
579-608): on extraction or timestamp failure it returns an error payload;
on the success path it evaluates `jsonify({...})`, and `jsonify` is
resolved against the module's imports. -/
def epochLocation (transform : ℚ → ℚ → ℚ → TmStruct → ℚ × ℚ × ℚ)
    (geocode : ℚ → ℚ → Int → Option String)
    (s : Store) (epoch : String) : Except PyErr Resp :=
  let stateVec := epochData s epoch
  match computeLocationAstropy transform stateVec with
  | none => .ok (.errorPayload "Failed to Extract Latitude, Longitude, and Height.")
  | some (lat, lon, alt) =>
    let geolocation := computeNearestGeolocation geocode lat lon
    if flaskImports.contains "jsonify" then
      .ok (.locationPayload lat lon alt geolocation)
    else
      .error (.nameError "jsonify")

/-! Concrete fixtures, mirroring the mock samples of
`test_iss_tracker.py` (velocities (2,2,1) and (3,1,4)). -/

def svA : StateVector :=
  ⟨"2025-063T12:00:00.000Z", some "1000.0", some "2000.0", some "3000.0",
   some "2.0", some "2.0", some "1.0"⟩

def svB : StateVector :=
  ⟨"2025-063T12:01:00.000Z", some "1100.0", some "2100.0", some "3100.0",
   some "3.0", some "1.0", some "4.0"⟩

def svC : StateVector :=
  ⟨"2025-063T12:05:00.000Z", some "1200.0", some "2200.0", some "3200.0",
   some "2.0", some "2.0", some "1.0"⟩

/-- A sample whose epoch key has day-of-year 400 (the spec's malformed
stored-key example). -/
def svBad : StateVector :=
  ⟨"2025-400T00:00:00.000Z", none, none, none, none, none, none⟩

/-- A store holding one well-formed and one malformed epoch key. -/
def storeC4 : Store :=
  ⟨[("2025-063T12:00:00.000Z", svA), ("2025-400T00:00:00.000Z", svBad)],
   ["2025-063T12:00:00.000Z", "2025-400T00:00:00.000Z"]⟩

/-- A store holding one well-formed sample, for the location route. -/
def storeC8 : Store :=
  ⟨[("2025-063T12:00:00.000Z", svA)], ["2025-063T12:00:00.000Z"]⟩

/-- A pre-populated store with two keys; reconciling the one-sample feed
`[svC]` into it yields three stored keys, more than the feed length. -/
def preStoreC10 : Store :=
  ⟨[("2025-063T12:00:00.000Z", svA), ("2025-063T12:01:00.000Z", svB)],
   ["2025-063T12:00:00.000Z", "2025-063T12:01:00.000Z"]⟩

/-- The target instant 2025-063T12:00:00 for the nearest-key scan. -/
def nowC1 : Int := mktimeUTC ⟨2025, 63, 12, 0, 0⟩

/-- A key 300 seconds after the target. -/
def keyFar : String := "2025-063T12:05:00.000Z"

/-- A key 60 seconds after the target. -/
def keyNear : String := "2025-063T12:01:00.000Z"

/-! Helper lemmas. -/

/-- One reconcile-loop step preserves the store/index 1:1 invariant. -/
theorem upsertIfChanged_inv (s : Store) (sv : StateVector) (h : StoreInv s) :
    StoreInv (upsertIfChanged s sv) := by
  obtain ⟨hnd, hdom⟩ := h
  unfold upsertIfChanged
  cases hget : lookupSV s.data sv.epoch with
  | none =>
    have hnotin : sv.epoch ∉ s.index := by
      intro hmem
      have h2 := hdom sv.epoch hmem
      simp only [Store.get] at h2
      rw [hget] at h2
      simp at h2
    refine ⟨?_, ?_⟩
    · exact hnd.append (List.nodup_singleton _) (List.disjoint_singleton.mpr hnotin)
    · intro k hk
      simp only [List.mem_append, List.mem_singleton] at hk
      show (lookupSV ((sv.epoch, sv) :: s.data) k).isSome
      by_cases he : sv.epoch = k
      · simp [lookupSV, he]
      · simp only [lookupSV, he, if_false]
        rcases hk with hk | hk
        · exact hdom k hk
        · exact absurd hk.symm he
  | some stored =>
    by_cases hev : stored = sv
    · simpa [hev] using And.intro hnd hdom
    · simp only [hev, if_false]
      refine ⟨hnd, ?_⟩
      intro k hk
      show (lookupSV ((sv.epoch, sv) :: s.data) k).isSome
      by_cases he : sv.epoch = k
      · simp [lookupSV, he]
      · simp only [lookupSV, he, if_false]
        exact hdom k hk

/-- The whole reconcile loop preserves the store/index 1:1 invariant. -/
theorem reconcile_inv (feed : List StateVector) (s : Store) (h : StoreInv s) :
    StoreInv (reconcile s feed) := by
  induction feed generalizing s with
  | nil => exact h
  | cons sv rest ih => exact ih _ (upsertIfChanged_inv s sv h)

/-- If any key of the scanned list fails to parse, the whole scan of
`now_epoch_speed` aborts with the unhandled ValueError, whatever the
running state. -/
theorem closestScan_error_of_bad_key (now : Int) :
    ∀ (keys : List String), (∃ k ∈ keys, parseEpochSeconds k = none) →
    ∀ best minDiff, closestScan now keys best minDiff = .error .valueError := by
  intro keys
  induction keys with
  | nil =>
    intro h
    rcases h with ⟨k, hk, _⟩
    cases hk
  | cons k rest ih =>
    intro h best minDiff
    cases hparse : parseEpochSeconds k with
    | none => simp [closestScan, hparse]
    | some t =>
      have hrest : ∃ a ∈ rest, parseEpochSeconds a = none := by
        rcases h with ⟨k2, hk2, hp⟩
        rcases List.mem_cons.mp hk2 with he | he
        · subst he
          rw [hparse] at hp
          cases hp
        · exact ⟨k2, he, hp⟩
      simp only [closestScan, hparse]
      split
      · exact ih hrest _ _
      · exact ih hrest _ _

/-- A non-empty list is not `isEmpty`. -/
theorem isEmpty_false_of_ne_nil {α : Type} {l : List α} (h : l ≠ []) :
    l.isEmpty = false := by
  cases l with
  | nil => exact absurd rfl h
  | cons a as => rfl

/-! Claim theorems. -/

/-- Claim C2 (confirmed): after reconciling any feed into a store whose
index has no duplicates and lists only stored keys, every epoch string
occurs at most once in the ordered key index; in particular a feed that
repeats an epoch, or a re-reconciliation of epochs already stored, never
appends a second index entry for that epoch. -/
theorem C2_reconcile_index_nodup (s : Store) (feed : List StateVector)
    (hnd : s.index.Nodup) (hdom : ∀ k ∈ s.index, (s.get k).isSome) :
    (reconcile s feed).index.Nodup :=
  (reconcile_inv feed s ⟨hnd, hdom⟩).1

theorem C2_reconcile_index_nodup_witness :
    (reconcile emptyStore [svA, svA, svB, svA]).index.Nodup :=
  C2_reconcile_index_nodup emptyStore [svA, svA, svB, svA]
    List.nodup_nil (by intro k hk; cases hk)

/-- Claim C3 (confirmed): upserting `(k, v)` twice with identical `v`
from a state where `k` is absent inserts the sample and appends `k` to
the index on the first call, performs no write at all on the second call
(the stored value compares equal and the store is returned unchanged),
and the index length grows by exactly 1 in total. -/
theorem C3_upsert_idempotent (s : Store) (sv : StateVector)
    (habs : s.get sv.epoch = none) :
    (upsertIfChanged s sv).get sv.epoch = some sv ∧
    (upsertIfChanged s sv).index = s.index ++ [sv.epoch] ∧
    upsertIfChanged (upsertIfChanged s sv) sv = upsertIfChanged s sv ∧
    (upsertIfChanged s sv).index.length = s.index.length + 1 := by
  have h0 : lookupSV s.data sv.epoch = none := habs
  have h1 : upsertIfChanged s sv
      = ⟨(sv.epoch, sv) :: s.data, s.index ++ [sv.epoch]⟩ := by
    simp [upsertIfChanged, h0]
  refine ⟨?_, ?_, ?_, ?_⟩
  · rw [h1]; simp [Store.get, lookupSV]
  · rw [h1]
  · rw [h1]; simp [upsertIfChanged, lookupSV]
  · rw [h1]; simp

theorem C3_upsert_idempotent_witness :
    upsertIfChanged (upsertIfChanged emptyStore svA) svA
      = upsertIfChanged emptyStore svA ∧
    (upsertIfChanged emptyStore svA).index.length
      = emptyStore.index.length + 1 :=
  ⟨(C3_upsert_idempotent emptyStore svA rfl).2.2.1,
   (C3_upsert_idempotent emptyStore svA rfl).2.2.2⟩

/-- Claim C5 (confirmed): on an empty key index the `/now` handler
returns the structured empty-database error payload (its first branch,
reached before any key scan or speed computation) and does not raise. -/
theorem C5_empty_store_error (now : Int) (s : Store) (hempty : s.index = []) :
    nowEpochSpeed now s = .ok (.errorPayload "Database is empty.") := by
  simp [nowEpochSpeed, hempty]

theorem C5_empty_store_error_witness :
    nowEpochSpeed 0 emptyStore = .ok (.errorPayload "Database is empty.") :=
  C5_empty_store_error 0 emptyStore rfl

/-- Claim C4 (amended): a stored key that fails to parse under the epoch
format is fatal for the whole `/now` operation — no key is skipped — but
the failure escapes as the unhandled ValueError of `time.strptime`
(there is no try/except around the scan), so it propagates to the
transport layer instead of being converted to an `{error: ...}`
payload. -/
theorem C4_malformed_key_raises (now : Int) (s : Store) (k : String)
    (hk : k ∈ s.index) (hbad : parseEpochSeconds k = none) :
    nowEpochSpeed now s = .error .valueError := by
  have hne : s.index ≠ [] := by
    intro h
    rw [h] at hk
    cases hk
  have hscan := closestScan_error_of_bad_key now s.index ⟨k, hk, hbad⟩ none none
  simp [nowEpochSpeed, hne, hscan]

theorem C4_malformed_key_raises_witness :
    nowEpochSpeed 1741348800 storeC4 = .error .valueError :=
  C4_malformed_key_raises 1741348800 storeC4 "2025-400T00:00:00.000Z"
    (List.mem_cons_of_mem _ (List.mem_cons_self _ _)) (by decide)

/-- Claim C4, counterexample to the claim as stated: on a store whose
second key has day-of-year 400, the `/now` operation ends in the
unhandled ValueError — it is NOT surfaced to the caller as a structured
`{error: ...}` payload. -/
theorem C4_counterexample_unhandled_parse_error :
    nowEpochSpeed 1741348800 storeC4 = .error .valueError ∧
    ∀ msg, nowEpochSpeed 1741348800 storeC4 ≠ .ok (.errorPayload msg) := by
  have h1 : nowEpochSpeed 1741348800 storeC4 = .error .valueError := by
    have hscan := closestScan_error_of_bad_key 1741348800 storeC4.index
      ⟨"2025-400T00:00:00.000Z",
       List.mem_cons_of_mem _ (List.mem_cons_self _ _), by decide⟩ none none
    have hne : storeC4.index ≠ [] := by decide
    simp [nowEpochSpeed, hne, hscan]
  refine ⟨h1, ?_⟩
  intro msg hc
  rw [h1] at hc
  exact Except.noConfusion hc

/-- Claim C1, code bug exhibited at a concrete input: with the target at
2025-063T12:00:00 and stored keys in scan order
[2025-063T12:05:00 (300 s away), 2025-063T12:01:00 (60 s away)], the
`/now` scan returns the FAR key.  The loop saves the signed difference
`latest_time_diff` (here -300) as `min_time_diff` instead of its
absolute value, so `abs(-60) < -300` is false and the strictly closer
second key is never retained, contradicting both the claim and the
handler's own docstring ("closest to the current UTC time"). -/
theorem C1_scan_returns_non_minimal_key :
    closestScan nowC1 [keyFar, keyNear] none none = .ok (some keyFar) ∧
    parseEpochSeconds keyFar = some (nowC1 + 300) ∧
    parseEpochSeconds keyNear = some (nowC1 + 60) ∧
    (nowC1 - (nowC1 + 60)).natAbs < (nowC1 - (nowC1 + 300)).natAbs := by
  refine ⟨rfl, by decide, by decide, by decide⟩

/-- Claim C6, counterexample to the claim as stated: the `/epochs`
handler validates `limit` BEFORE `offset`, so the request
`limit=abc&offset=5` against a one-sample feed — whose offset parses to
5, at least the sample count — returns the limit error payload, not
`offset param. out of range.`. -/
theorem C6_counterexample_limit_error_precedence :
    pyInt "5" = some 5 ∧
    (([svA].length : Int) ≤ 5) ∧
    (readIssData (.ok [svA]) ⟨some "abc", some "5"⟩ emptyStore).2
      = .errorPayload "limit parameter must be an integer" ∧
    Resp.errorPayload "limit parameter must be an integer"
      ≠ Resp.errorPayload "offset param. out of range." := by
  refine ⟨by decide, by decide, rfl, ?_⟩
  intro h
  injection h with h2
  exact absurd h2 (by decide)

/-- Claim C6 (amended): for every `/epochs` request whose feed fetch
succeeds with a non-empty feed and whose `limit` parameter is absent or
parses as an integer, if the `offset` parameter parses as an integer at
least the fetched feed's sample count, the handler returns exactly the
payload `offset param. out of range.` instead of a sample list. -/
theorem C6_offset_out_of_range_error (svs : List StateVector) (ps : Params)
    (s : Store) (n : Int)
    (hne : svs ≠ [])
    (hlim : limitRaw ps svs ≠ none)
    (hoff : offsetRaw ps = some n)
    (hge : (svs.length : Int) ≤ n) :
    (readIssData (.ok svs) ps s).2
      = .errorPayload "offset param. out of range." := by
  have hne2 : svs.isEmpty = false := isEmpty_false_of_ne_nil hne
  cases hl : limitRaw ps svs with
  | none => exact absurd hl hlim
  | some lim => simp [readIssData, hne2, hl, hoff, hge]

theorem C6_offset_out_of_range_error_witness :
    (readIssData (.ok [svA]) ⟨none, some "7"⟩ emptyStore).2
      = .errorPayload "offset param. out of range." :=
  C6_offset_out_of_range_error [svA] ⟨none, some "7"⟩ emptyStore 7
    (by decide) (by decide) (by decide) (by decide)

/-- Claim C7 (confirmed): `compute_speed` is the Euclidean norm of its
three velocity components for all inputs, and in particular takes the
value 0 at (0,0,0), 3 at (2,2,1) and sqrt 26 at (3,1,4). -/
theorem C7_compute_speed_euclidean_norm :
    (∀ vx vy vz : ℝ, compute_speed vx vy vz
      = Real.sqrt (vx ^ 2 + vy ^ 2 + vz ^ 2)) ∧
    compute_speed 0 0 0 = 0 ∧
    compute_speed 2 2 1 = 3 ∧
    compute_speed 3 1 4 = Real.sqrt 26 := by
  refine ⟨fun vx vy vz => rfl, ?_, ?_, ?_⟩
  · simp [compute_speed]
  · have h : (2 : ℝ) ^ 2 + 2 ^ 2 + 1 ^ 2 = 3 ^ 2 := by norm_num
    show Real.sqrt ((2 : ℝ) ^ 2 + 2 ^ 2 + 1 ^ 2) = 3
    rw [h, Real.sqrt_sq (by norm_num : (0 : ℝ) ≤ 3)]
  · have h : (3 : ℝ) ^ 2 + 1 ^ 2 + 4 ^ 2 = 26 := by norm_num
    show Real.sqrt ((3 : ℝ) ^ 2 + 1 ^ 2 + 4 ^ 2) = Real.sqrt 26
    rw [h]

/-- Claim C8 (confirmed): whenever the stored sample of an epoch passes
coordinate extraction and timestamp conversion (the success path of the
location route), `epoch_location` ends in an unhandled NameError for the
never-imported name `jsonify` instead of returning its success payload;
only its error branches return payloads. -/
theorem C8_location_success_path_name_error
    (transform : ℚ → ℚ → ℚ → TmStruct → ℚ × ℚ × ℚ)
    (geocode : ℚ → ℚ → Int → Option String)
    (s : Store) (epoch : String)
    (hsucc : (computeLocationAstropy transform (epochData s epoch)).isSome) :
    epochLocation transform geocode s epoch = .error (.nameError "jsonify") := by
  unfold epochLocation
  cases hc : computeLocationAstropy transform (epochData s epoch) with
  | none =>
    rw [hc] at hsucc
    simp at hsucc
  | some triple =>
    obtain ⟨lat, lon, alt⟩ := triple
    simp only [hc]
    have hj : ("jsonify" ∈ flaskImports) = False := by simp [flaskImports]
    simp [hj]

theorem C8_location_success_path_name_error_witness :
    epochLocation (fun _ _ _ _ => (0, 0, 0)) (fun _ _ _ => none) storeC8
      "2025-063T12:00:00.000Z" = .error (.nameError "jsonify") :=
  C8_location_success_path_name_error (fun _ _ _ _ => (0, 0, 0))
    (fun _ _ _ => none) storeC8 "2025-063T12:00:00.000Z" (by decide)

/-- Claim C9 (confirmed): on a successfully fetched non-empty feed, the
`/epochs` handler performs the whole fetch-and-reconcile store mutation
BEFORE validating the query parameters: for every request with a
non-integer limit, a non-integer offset, or an offset at least the feed
length, the returned value is one of the three validation error
payloads, yet the resulting store is already `reconcile s svs` — the
error response is not atomic with respect to store state. -/
theorem C9_store_mutated_before_validation (svs : List StateVector)
    (ps : Params) (s : Store)
    (hne : svs ≠ [])
    (hbad : limitRaw ps svs = none ∨ offsetRaw ps = none ∨
      ∃ n, offsetRaw ps = some n ∧ (svs.length : Int) ≤ n) :
    (readIssData (.ok svs) ps s).1 = reconcile s svs ∧
    ∃ msg, (readIssData (.ok svs) ps s).2 = .errorPayload msg ∧
      msg ∈ ["limit parameter must be an integer",
             "offset parameter must be an integer",
             "offset param. out of range."] := by
  have hne2 : svs.isEmpty = false := isEmpty_false_of_ne_nil hne
  cases hl : limitRaw ps svs with
  | none =>
    exact ⟨by simp [readIssData, hne2, hl],
      "limit parameter must be an integer",
      by simp [readIssData, hne2, hl], by simp⟩
  | some lim =>
    cases ho : offsetRaw ps with
    | none =>
      exact ⟨by simp [readIssData, hne2, hl, ho],
        "offset parameter must be an integer",
        by simp [readIssData, hne2, hl, ho], by simp⟩
    | some m =>
      have hge : (svs.length : Int) ≤ m := by
        rcases hbad with hb | hb | ⟨n, hn, hgen⟩
        · rw [hl] at hb; cases hb
        · rw [ho] at hb; cases hb
        · rw [ho] at hn
          injection hn with h3
          subst h3
          exact hgen
      exact ⟨by simp [readIssData, hne2, hl, ho, hge],
        "offset param. out of range.",
        by simp [readIssData, hne2, hl, ho, hge], by simp⟩

theorem C9_store_mutated_before_validation_witness :
    (readIssData (.ok [svA]) ⟨some "abc", none⟩ emptyStore).1
      = reconcile emptyStore [svA] ∧
    ∃ msg, (readIssData (.ok [svA]) ⟨some "abc", none⟩ emptyStore).2
        = .errorPayload msg ∧
      msg ∈ ["limit parameter must be an integer",
             "offset parameter must be an integer",
             "offset param. out of range."] :=
  C9_store_mutated_before_validation [svA] ⟨some "abc", none⟩ emptyStore
    (by decide) (Or.inl (by decide))

/-- On a non-negative lower bound, a Python slice of width `w` has at
most `w` elements. -/
theorem pySlice_length_le {α : Type} (xs : List α) (n : Int) (w : Nat)
    (hn : 0 ≤ n) :
    (pySlice xs n (n + (w : Int))).length ≤ w := by
  unfold pySlice pyIndex
  have h1 : ¬ (n + (w : Int) < 0) := by omega
  have h2 : ¬ (n < 0) := by omega
  simp only [h1, h2, if_false, List.length_drop, List.length_take]
  have h3 : (n + (w : Int)).toNat = n.toNat + w := by omega
  rw [h3]
  omega

/-- Claim C10 (confirmed): in the `/epochs` handler both the default
limit and the offset range check are taken from the freshly fetched
feed's length, not from the stored key index.  Whenever the reconciled
store holds more keys than the latest feed: (a) a request without a
limit parameter and with a valid offset returns the stored list sliced
to a window of the feed's length — hence at most feed-length samples —
and (b) an integer offset that is a valid position in the stored key
list but at least the feed length is rejected as out of range. -/
theorem C10_feed_length_governs_defaults_and_range :
    (∀ (svs : List StateVector) (ps : Params) (s : Store) (n : Int),
      svs ≠ [] → ps.limit = none → offsetRaw ps = some n → 0 ≤ n →
      n < (svs.length : Int) →
      (svs.length : Int) < ((reconcile s svs).index.length : Int) →
      (readIssData (.ok svs) ps s).2
        = .sampleList (pySlice (storedSamples (reconcile s svs)) n
            (n + (svs.length : Int))) ∧
      (pySlice (storedSamples (reconcile s svs)) n
          (n + (svs.length : Int))).length ≤ svs.length)
    ∧
    (∀ (svs : List StateVector) (ps : Params) (s : Store) (n : Int),
      svs ≠ [] → ps.limit = none → offsetRaw ps = some n →
      (svs.length : Int) ≤ n → n < ((reconcile s svs).index.length : Int) →
      (readIssData (.ok svs) ps s).2
        = .errorPayload "offset param. out of range.") := by
  constructor
  · intro svs ps s n hne hlim hoff hn0 hlt hbig
    have hne2 : svs.isEmpty = false := isEmpty_false_of_ne_nil hne
    have hl : limitRaw ps svs = some (svs.length : Int) := by
      simp [limitRaw, hlim]
    have hnle : ¬ ((svs.length : Int) ≤ n) := by omega
    constructor
    · simp [readIssData, hne2, hl, hoff, hnle]
    · exact pySlice_length_le _ n svs.length hn0
  · intro svs ps s n hne hlim hoff hge hpos
    have hne2 : svs.isEmpty = false := isEmpty_false_of_ne_nil hne
    have hl : limitRaw ps svs = some (svs.length : Int) := by
      simp [limitRaw, hlim]
    simp [readIssData, hne2, hl, hoff, hge]

theorem C10_feed_length_governs_defaults_and_range_witness :
    ((readIssData (.ok [svC]) ⟨none, none⟩ preStoreC10).2
      = .sampleList (pySlice (storedSamples (reconcile preStoreC10 [svC])) 0
          (0 + (([svC] : List StateVector).length : Int))) ∧
     (pySlice (storedSamples (reconcile preStoreC10 [svC])) 0
         (0 + (([svC] : List StateVector).length : Int))).length
       ≤ ([svC] : List StateVector).length) ∧
    (readIssData (.ok [svC]) ⟨none, some "2"⟩ preStoreC10).2
      = .errorPayload "offset param. out of range." :=
  ⟨C10_feed_length_governs_defaults_and_range.1 [svC] ⟨none, none⟩
      preStoreC10 0 (by decide) rfl (by decide) (by decide) (by decide)
      (by decide),
   C10_feed_length_governs_defaults_and_range.2 [svC] ⟨none, some "2"⟩
      preStoreC10 2 (by decide) rfl (by decide) (by decide) (by decide)⟩
